import Mathlib

/-!
Shallow embedding of the Finverse server core (src/server/src): the
authentication routes (routes/auth.js), the session-guard middleware
(middleware/authMiddleware.js), the AI chat relay (routes/chatbot.js)
and the startup sequence (index.js), together with models of the
external collaborators they call (jsonwebtoken, bcryptjs, the Mongoose
user collection, axios and the Gemini endpoint).
-/

/-! ## Data model: users and the credential store -/

/-- A persisted user record, as stored by the Mongoose `User` model:
`_id` (modelled as a `Nat`), `name`, `email`, `passwordHash`. -/
structure User where
  id : Nat
  name : String
  email : String
  passwordHash : String
deriving DecidableEq, Repr

/-- `User.findOne({ email })`: first stored record with the given email. -/
def findOne (store : List User) (email : String) : Option User :=
  store.find? (fun u => u.email == email)

/-- `User.findById(id)`: first stored record with the given id. -/
def findById (store : List User) (id : Nat) : Option User :=
  store.find? (fun u => u.id == id)

/-! ## Model of bcryptjs

`bcrypt.hash(p, 10)` is a salted one-way hash; the model tags the
password, which preserves the contract the routes rely on: comparing a
password against a stored hash succeeds exactly when the hash was made
from that password.  `bcrypt.compare` rejects with an
`Illegal arguments` error when the supplied password is not a string
(e.g. the field was absent from the request body), which the routes
surface through their generic catch branch. -/

def bcryptHash (password : String) : String :=
  "bcrypt$" ++ password

def bcryptCompare (password : Option String) (hash : String) : Except String Bool :=
  match password with
  | none => .error "Illegal arguments"
  | some p => .ok (bcryptHash p == hash)

/-! ## Model of jsonwebtoken

A signed token carries its payload and expiry, plus a MAC binding the
payload, the expiry and the signing secret; `jwt.verify` succeeds
exactly when the MAC matches the presented payload and secret and the
token is not expired.  Tampering with the payload or expiry without the
secret breaks the MAC. -/

/-- The claims the routes embed in a token: `{ id, name, email }`. -/
structure Claims where
  id : Nat
  name : String
  email : String
deriving DecidableEq, Repr

structure SignedToken where
  payload : Claims
  exp : Nat
  macPayload : Claims
  macExp : Nat
  macSecret : String
deriving DecidableEq, Repr

/-- `jwt.sign(claims, secret, { expiresIn })`: the MAC fields equal the
signed-over data. -/
def jwtSign (c : Claims) (secret : String) (exp : Nat) : SignedToken :=
  { payload := c, exp := exp, macPayload := c, macExp := exp, macSecret := secret }

/-- `jwt.verify(token, secret)` at clock time `now`: checks the MAC and
the expiry, returning the decoded claims on success. -/
def jwtVerify (t : SignedToken) (secret : String) (now : Nat) : Option Claims :=
  if t.macPayload = t.payload ∧ t.macExp = t.exp ∧ t.macSecret = secret ∧ now < t.exp
  then some t.payload else none

/-- `expiresIn: '7d'`, in seconds. -/
def sevenDays : Nat := 7 * 24 * 60 * 60

/-- Wire format of a token as it travels in the `Authorization` header:
a newline-separated rendering of the token fields. -/
def encodeToken (t : SignedToken) : String :=
  toString t.payload.id ++ "\n" ++ t.payload.name ++ "\n" ++ t.payload.email
    ++ "\n" ++ toString t.exp ++ "\n" ++ toString t.macPayload.id ++ "\n"
    ++ t.macPayload.name ++ "\n" ++ t.macPayload.email ++ "\n"
    ++ toString t.macExp ++ "\n" ++ t.macSecret

/-- Split a character list at newlines (accumulator holds the current
field reversed). -/
def splitLinesAux : List Char → List Char → List String
  | acc, [] => [String.mk acc.reverse]
  | acc, c :: rest =>
      if c = '\n' then String.mk acc.reverse :: splitLinesAux [] rest
      else splitLinesAux (c :: acc) rest

def splitNewlines (s : String) : List String :=
  splitLinesAux [] s.data

def parseNatAux : Nat → List Char → Option Nat
  | acc, [] => some acc
  | acc, c :: rest =>
      if c.isDigit then parseNatAux (acc * 10 + (c.toNat - 48)) rest
      else none

/-- Parse a decimal numeral; the empty string and non-digit characters
fail. -/
def parseNat? (s : String) : Option Nat :=
  match s.data with
  | [] => none
  | l => parseNatAux 0 l

/-- Parsing a wire token back into its structure; strings that are not
well-formed tokens (malformed tokens) fail to decode. -/
def decodeToken (s : String) : Option SignedToken :=
  match splitNewlines s with
  | [a, b, c, d, e, f, g, h, i] =>
    match parseNat? a, parseNat? d, parseNat? e, parseNat? h with
    | some pid, some pexp, some mid, some mexp =>
        some { payload := { id := pid, name := b, email := c }, exp := pexp,
               macPayload := { id := mid, name := f, email := g }, macExp := mexp,
               macSecret := i }
    | _, _, _, _ => none
  | _ => none

/-- `jwt.verify` applied to a wire-format token string: malformed
strings fail, well-formed ones are checked as `jwtVerify`. -/
def verifyTokenString (s : String) (secret : String) (now : Nat) : Option Claims :=
  (decodeToken s).bind (fun t => jwtVerify t secret now)

/-! ## Session guard (middleware/authMiddleware.js) -/

inductive GuardResult where
  | rejected (status : Nat) (message : String)
  | verified (userId : Nat)
deriving DecidableEq, Repr

/-- JS `String.prototype.startsWith`, over the character list. -/
def strStartsWith (s pre : String) : Bool :=
  pre.data.isPrefixOf s.data

/-- JS `String.prototype.slice(n)` for a non-negative start, over the
character list. -/
def strSlice (s : String) (n : Nat) : String :=
  String.mk (s.data.drop n)

/-- `const token = header.startsWith('Bearer ') ? header.slice(7) : null`,
with the absent header defaulted to the empty string. -/
def extractBearer (authorization : Option String) : Option String :=
  let header := authorization.getD ""
  if strStartsWith header "Bearer " then some (strSlice header 7) else none

/-- The middleware: missing token → 401 `Missing token`; failed
verification → 401 `Invalid token`; otherwise the decoded id is
attached and control passes to the handler. -/
def authMiddleware (authorization : Option String) (secret : String) (now : Nat) :
    GuardResult :=
  match extractBearer authorization with
  | none => .rejected 401 "Missing token"
  | some tok =>
    match verifyTokenString tok secret now with
    | some claims => .verified claims.id
    | none => .rejected 401 "Invalid token"

/-- Retrying the same request `n` times: the guard is re-run on the same
header each time. -/
def guardRetries (n : Nat) (authorization : Option String) (secret : String)
    (now : Nat) : List GuardResult :=
  (List.range n).map (fun _ => authMiddleware authorization secret now)

/-! ## Auth routes (routes/auth.js) -/

/-- The `{ id, name, email }` projection of a user returned in response
bodies; it has no `passwordHash` field. -/
structure UserView where
  id : Nat
  name : String
  email : String
deriving DecidableEq, Repr

/-- Responses of the register and login handlers: success carries the
token and user projection, failure carries the HTTP status and the
message body. -/
inductive AuthResponse where
  | ok (token : SignedToken) (user : UserView)
  | err (status : Nat) (message : String)
deriving DecidableEq, Repr

/-- POST /register.  Request-body fields are `Option String` (absent or
a string); the `!name || !email || !password` check fails on an absent
or empty field.  `freshId` is the id Mongo generates for the new
record.  Returns the response together with the store after the call. -/
def registerHandler (store : List User) (secret : String) (now : Nat)
    (freshId : Nat) (name email password : Option String) :
    AuthResponse × List User :=
  match name, email, password with
  | some n, some e, some p =>
    if n == "" || e == "" || p == "" then
      (.err 400 "All fields are required", store)
    else
      match findOne store e with
      | some _ => (.err 400 "Email already in use", store)
      | none =>
        let user : User := { id := freshId, name := n, email := e,
                             passwordHash := bcryptHash p }
        (.ok (jwtSign { id := freshId, name := n, email := e } secret (now + sevenDays))
             { id := freshId, name := n, email := e },
         store ++ [user])
  | _, _, _ => (.err 400 "All fields are required", store)

/-- POST /login.  The password is `Option String`: the handler performs
no presence check of its own, so an absent password reaches
`bcrypt.compare`, whose rejection is caught by the generic catch branch
as a 500 `Server error`. -/
def loginHandler (store : List User) (secret : String) (now : Nat)
    (email : String) (password : Option String) : AuthResponse :=
  match findOne store email with
  | none => .err 400 "Invalid credentials"
  | some user =>
    match bcryptCompare password user.passwordHash with
    | .error _ => .err 500 "Server error"
    | .ok false => .err 400 "Invalid credentials"
    | .ok true =>
        .ok (jwtSign { id := user.id, name := user.name, email := user.email }
               secret (now + sevenDays))
            { id := user.id, name := user.name, email := user.email }

/-- Responses of GET /me: on success the body is `{ user }` where `user`
is the projection, or `null` when the lookup found nothing. -/
inductive MeResponse where
  | okUser (user : Option UserView)
  | err (status : Nat) (message : String)
deriving DecidableEq, Repr

/-- GET /me: the guard runs first; on `verified` the handler looks the
user up by the decoded id, projects with `.select('name email')` (which
keeps `_id`, drops `passwordHash`) and returns `{ user }` with no
existence check on the lookup result. -/
def meHandler (store : List User) (secret : String) (now : Nat)
    (authorization : Option String) : MeResponse :=
  match authMiddleware authorization secret now with
  | .rejected s m => .err s m
  | .verified uid =>
      .okUser ((findById store uid).map
        (fun u => { id := u.id, name := u.name, email := u.email }))

/-! ## AI chat relay (routes/chatbot.js)

`axios.post` rejects on any transport failure and on any non-2xx
status, which sends control to the catch branch; a fulfilled call
yields a parsed response body, from which the handler takes
`data?.candidates?.[0]?.content?.parts?.[0]?.text` and falls back when
that chain, or the JS `||` on an empty string, yields nothing. -/

structure GeminiPart where
  text : Option String
deriving DecidableEq, Repr

structure GeminiContent where
  parts : List GeminiPart
deriving DecidableEq, Repr

structure GeminiCandidate where
  content : Option GeminiContent
deriving DecidableEq, Repr

structure GeminiBody where
  candidates : Option (List GeminiCandidate)
deriving DecidableEq, Repr

/-- The optional chain `data?.candidates?.[0]?.content?.parts?.[0]?.text`. -/
def firstCandidateText (b : GeminiBody) : Option String :=
  (((b.candidates.bind List.head?).bind GeminiCandidate.content).bind
    (fun c => c.parts.head?)).bind GeminiPart.text

/-- Outcome of the `axios.post` call to the upstream provider:
`failure` covers both a transport error and a non-success HTTP status
(axios rejects on either, reaching the catch branch); `ok` is a
fulfilled call with the parsed body. -/
inductive UpstreamOutcome where
  | failure (detail : String)
  | ok (body : GeminiBody)
deriving DecidableEq, Repr

/-- What the chat route sends the client: `res.json({ reply })` on the
happy path (status 200), or an error status with an `error` body. -/
inductive ChatResult where
  | reply (text : String)
  | error (status : Nat) (message : String)
deriving DecidableEq, Repr

/-- The fallback reply the handler substitutes for a missing or empty
candidate text. -/
def fallbackReply : String := "Sorry, I couldn’t generate a response."

/-- POST / on the chat router, as a function of the upstream outcome. -/
def chatbotHandler (outcome : UpstreamOutcome) : ChatResult :=
  match outcome with
  | .failure _ =>
      .error 500 "Chatbot failed to respond. Check API key or model endpoint."
  | .ok body =>
      .reply (match firstCandidateText body with
              | some t => if t == "" then fallbackReply else t
              | none => fallbackReply)

/-! ## Startup (index.js) -/

/-- The environment variables the server reads at startup. -/
structure Env where
  PORT : Option Nat
  MONGODB_URI : Option String
  JWT_SECRET : Option String
deriving DecidableEq, Repr

inductive ConnectOutcome where
  | success
  | failure (message : String)
deriving DecidableEq, Repr

inductive StartupResult where
  | listening (port : Nat)
  | exited (code : Nat)
deriving DecidableEq, Repr

/-- The startup sequence: `mongoose.connect(MONGODB_URI)` then
`app.listen(PORT || 4000)` on success, `process.exit(1)` on a
connection error.  No other environment variable is consulted. -/
def startup (env : Env) (mongo : ConnectOutcome) : StartupResult :=
  match mongo with
  | .success => .listening (env.PORT.getD 4000)
  | .failure _ => .exited 1

/-! ## Two concurrent registrations (routes/auth.js lines 16-20)

The register handler runs `User.findOne({ email })` and then
`User.create(...)` as two separate awaited storage operations, so two
concurrent registrations interleave at that granularity.  The machine
below runs two register requests for the same e-mail address step by
step under an arbitrary scheduler. -/

/-- Modelled from the spec: the Credential Store (the Mongoose `User`
model in `src/server/src/models/User.js`, a file absent from the
sources) provides atomic creation that "fails with DuplicateEmail if a
record with that email exists; otherwise computes a salted hash of
password and persists a new record". -/
def storeCreate (store : List User) (u : User) : Except String (List User) :=
  if (findOne store u.email).isSome then .error "DuplicateEmail"
  else .ok (store ++ [u])

/-- Where one register request stands: before its `findOne`, between
`findOne` and `create` (remembering what `findOne` saw), or finished
with a response. -/
inductive RegPhase where
  | start
  | checked (sawExisting : Bool)
  | done (response : AuthResponse)
deriving DecidableEq, Repr

/-- One storage-level step of a register request for `(n, e, p)` with
generated id `freshId`: the `findOne`, the 400 on a seen duplicate, or
the `create` — whose `DuplicateEmail` rejection is caught by the
generic catch branch as a 500 `Server error`. -/
def regStep (secret : String) (now : Nat) (freshId : Nat) (n e p : String)
    (store : List User) (ph : RegPhase) : RegPhase × List User :=
  match ph with
  | .start => (.checked (findOne store e).isSome, store)
  | .checked true => (.done (.err 400 "Email already in use"), store)
  | .checked false =>
    match storeCreate store { id := freshId, name := n, email := e,
                              passwordHash := bcryptHash p } with
    | .error _ => (.done (.err 500 "Server error"), store)
    | .ok store2 =>
        (.done (.ok (jwtSign { id := freshId, name := n, email := e } secret
                       (now + sevenDays))
                    { id := freshId, name := n, email := e }),
         store2)
  | .done r => (.done r, store)

/-- Joint state of the store and the two in-flight register requests. -/
structure RaceState where
  store : List User
  r1 : RegPhase
  r2 : RegPhase
deriving DecidableEq, Repr

/-- Run a schedule: `true` steps request 1 (id `id1`), `false` steps
request 2 (id `id2`); both requests carry the same `(n, e, p)`. -/
def raceRun (secret : String) (now : Nat) (n e p : String) (id1 id2 : Nat) :
    List Bool → RaceState → RaceState
  | [], st => st
  | true :: rest, st =>
      raceRun secret now n e p id1 id2 rest
        { store := (regStep secret now id1 n e p st.store st.r1).2,
          r1 := (regStep secret now id1 n e p st.store st.r1).1,
          r2 := st.r2 }
  | false :: rest, st =>
      raceRun secret now n e p id1 id2 rest
        { store := (regStep secret now id2 n e p st.store st.r2).2,
          r1 := st.r1,
          r2 := (regStep secret now id2 n e p st.store st.r2).1 }

/-- A request ended in a success response. -/
def RegPhase.isOk : RegPhase → Bool
  | .done (.ok _ _) => true
  | _ => false

/-! ## Helper lemmas -/

theorem findOne_cons (u : User) (l : List User) (e : String) :
    findOne (u :: l) e = if u.email == e then some u else findOne l e := by
  cases h : (u.email == e) <;> simp [findOne, List.find?_cons, h]

theorem findOne_append_none (store l : List User) (e : String)
    (h : findOne store e = none) : findOne (store ++ l) e = findOne l e := by
  induction store with
  | nil => simp
  | cons a rest ih =>
      rw [List.cons_append, findOne_cons]
      rw [findOne_cons] at h
      cases ha : (a.email == e) with
      | true => simp [ha] at h
      | false =>
          simp only [ha, if_false] at h ⊢
          exact ih h

theorem findOne_append_isSome (store l : List User) (e : String)
    (h : (findOne store e).isSome) : (findOne (store ++ l) e).isSome := by
  induction store with
  | nil => simp [findOne] at h
  | cons a rest ih =>
      rw [List.cons_append, findOne_cons]
      rw [findOne_cons] at h
      cases ha : (a.email == e) with
      | true => simp [ha]
      | false =>
          simp only [ha, if_false] at h ⊢
          exact ih h

theorem findOne_snoc_self (store : List User) (u : User)
    (h : findOne store u.email = none) :
    findOne (store ++ [u]) u.email = some u := by
  rw [findOne_append_none store [u] u.email h, findOne_cons]
  simp [findOne]

/-- JS falsiness of a request-body string field: absent or empty. -/
def isBlank : Option String → Bool
  | none => true
  | some s => s == ""

/-! ## Claims -/

/-- C1: for every stored user set, login with an unknown email and login
with a registered email but a wrong password produce the identical
externally visible failure: a 400 response with the body
`Invalid credentials`, so a caller cannot distinguish the two cases. -/
theorem login_indistinguishable_failures (store : List User) (secret : String)
    (now : Nat) (e1 : String) (p1 : Option String) (e2 : String)
    (p2 : Option String) (u : User)
    (h1 : findOne store e1 = none)
    (h2 : findOne store e2 = some u)
    (h3 : bcryptCompare p2 u.passwordHash = .ok false) :
    loginHandler store secret now e1 p1 = .err 400 "Invalid credentials" ∧
    loginHandler store secret now e2 p2 = loginHandler store secret now e1 p1 := by
  simp [loginHandler, h1, h2, h3]

def demoUser : User :=
  { id := 1, name := "Ada", email := "ada@example.com",
    passwordHash := bcryptHash "secret123" }

def demoStore : List User := [demoUser]

theorem login_indistinguishable_failures_check :
    loginHandler demoStore "sec" 0 "bob@example.com" (some "x") =
      .err 400 "Invalid credentials" ∧
    loginHandler demoStore "sec" 0 "ada@example.com" (some "wrong") =
      loginHandler demoStore "sec" 0 "bob@example.com" (some "x") :=
  login_indistinguishable_failures demoStore "sec" 0 "bob@example.com" (some "x")
    "ada@example.com" (some "wrong") demoUser (by decide) (by decide)
    (by simp [bcryptCompare, demoUser, bcryptHash])

/-- C2: a token signed over `{id, name, email}` with the server secret
and the 7-day expiry verifies with the same secret immediately after
issuance, and the decoded claims are exactly the original ones. -/
theorem token_roundtrip (c : Claims) (secret : String) (now : Nat) :
    jwtVerify (jwtSign c secret (now + sevenDays)) secret now = some c := by
  simp [jwtVerify, jwtSign, sevenDays]

/-- C3: a register request with a missing or empty field fails with 400
`All fields are required` and creates no user; with all fields present
and a fresh email it succeeds exactly once, creating the user and
returning the token and `{id, name, email}`; a second register with the
same email (and well-formed fields) fails with 400
`Email already in use` and leaves the store unchanged. -/
theorem register_validates_and_unique (store : List User) (secret : String)
    (now : Nat) :
    (∀ id name email password,
        (isBlank name || isBlank email || isBlank password) = true →
        registerHandler store secret now id name email password =
          (.err 400 "All fields are required", store)) ∧
    (∀ id n e p, n ≠ "" → e ≠ "" → p ≠ "" → findOne store e = none →
        registerHandler store secret now id (some n) (some e) (some p) =
          (.ok (jwtSign { id := id, name := n, email := e } secret (now + sevenDays))
               { id := id, name := n, email := e },
           store ++ [{ id := id, name := n, email := e,
                       passwordHash := bcryptHash p }]) ∧
        (∀ id2 n2 p2, n2 ≠ "" → p2 ≠ "" →
          registerHandler
              (store ++ [{ id := id, name := n, email := e,
                           passwordHash := bcryptHash p }])
              secret now id2 (some n2) (some e) (some p2) =
            (.err 400 "Email already in use",
             store ++ [{ id := id, name := n, email := e,
                         passwordHash := bcryptHash p }]))) := by
  constructor
  · intro id name email password h
    cases name with
    | none => rfl
    | some n =>
      cases email with
      | none => rfl
      | some e =>
        cases password with
        | none => rfl
        | some p =>
          simp only [isBlank] at h
          simp [registerHandler, h]
  · intro id n e p hn he hp hf
    constructor
    · simp [registerHandler, hn, he, hp, hf]
    · intro id2 n2 p2 hn2 hp2
      have hs := findOne_snoc_self store
        { id := id, name := n, email := e, passwordHash := bcryptHash p } hf
      simp [registerHandler, hn2, he, hp2, hs]

theorem register_validates_and_unique_check :
    registerHandler demoStore "sec" 0 7 (some "Bob") (some "") (some "pw") =
      (.err 400 "All fields are required", demoStore) ∧
    (registerHandler [] "sec" 0 1 (some "Ada") (some "ada@example.com")
        (some "secret123") =
      (.ok (jwtSign { id := 1, name := "Ada", email := "ada@example.com" } "sec"
              sevenDays)
           { id := 1, name := "Ada", email := "ada@example.com" },
       [demoUser]) ∧
     registerHandler [demoUser] "sec" 0 2 (some "Eve") (some "ada@example.com")
        (some "hunter2") =
      (.err 400 "Email already in use", [demoUser])) :=
  ⟨(register_validates_and_unique demoStore "sec" 0).1 7 (some "Bob") (some "")
      (some "pw") (by decide),
   by
     have h := (register_validates_and_unique [] "sec" 0).2 1 "Ada"
       "ada@example.com" "secret123" (by decide) (by decide) (by decide)
       (by decide)
     exact ⟨h.1, h.2 2 "Eve" "hunter2" (by decide) (by decide)⟩⟩

/-- C10: for a registered email, a login request whose body has no
password field reaches `bcrypt.compare` with a non-string argument,
whose rejection the generic catch branch turns into the 500
`Server error` response — not the 400 `Invalid credentials` one. -/
theorem login_absent_password_server_error (store : List User) (secret : String)
    (now : Nat) (email : String) (u : User)
    (h : findOne store email = some u) :
    loginHandler store secret now email none = .err 500 "Server error" ∧
    loginHandler store secret now email none ≠ .err 400 "Invalid credentials" := by
  simp [loginHandler, h, bcryptCompare]

theorem login_absent_password_server_error_check :
    loginHandler demoStore "sec" 0 "ada@example.com" none =
      .err 500 "Server error" ∧
    loginHandler demoStore "sec" 0 "ada@example.com" none ≠
      .err 400 "Invalid credentials" :=
  login_absent_password_server_error demoStore "sec" 0 "ada@example.com" demoUser
    (by decide)

/-- C5: a protected request whose authorization header yields no bearer
token is rejected 401 `Missing token`, and one whose token fails
verification (malformed, tampered or expired) is rejected 401
`Invalid token`; every retry with the same bad header gives the same
rejection and the protected handler is never reached. -/
theorem guard_rejects_bad_tokens (authorization : Option String)
    (secret : String) (now : Nat) (n : Nat) :
    (extractBearer authorization = none →
       ∀ r ∈ guardRetries n authorization secret now,
         r = .rejected 401 "Missing token") ∧
    (∀ tok, extractBearer authorization = some tok →
       verifyTokenString tok secret now = none →
       ∀ r ∈ guardRetries n authorization secret now,
         r = .rejected 401 "Invalid token") := by
  constructor
  · intro h r hr
    simp only [guardRetries, List.mem_map] at hr
    obtain ⟨i, _, hval⟩ := hr
    rw [← hval]
    unfold authMiddleware
    rw [h]
  · intro tok h1 h2 r hr
    simp only [guardRetries, List.mem_map] at hr
    obtain ⟨i, _, hval⟩ := hr
    rw [← hval]
    unfold authMiddleware
    rw [h1]
    simp only [h2]

theorem guard_rejects_bad_tokens_check :
    (∀ r ∈ guardRetries 3 none "sec" 0, r = .rejected 401 "Missing token") ∧
    (∀ r ∈ guardRetries 2 (some "Bearer garbage") "sec" 0,
       r = .rejected 401 "Invalid token") :=
  ⟨(guard_rejects_bad_tokens none "sec" 0 3).1 (by decide),
   (guard_rejects_bad_tokens (some "Bearer garbage") "sec" 0 2).2 "garbage"
     (by decide) (by decide)⟩

/-- C7: when the guard accepts the token, GET /me returns the stored
user projected to `{id, name, email}` (the `passwordHash` is excluded
by construction of `UserView`); when the guard rejects, the response is
a 401 with the guard message. -/
theorem me_projection_or_unauthorized (store : List User) (secret : String)
    (now : Nat) (authorization : Option String) :
    (∀ uid u, authMiddleware authorization secret now = .verified uid →
        findById store uid = some u →
        meHandler store secret now authorization =
          .okUser (some { id := u.id, name := u.name, email := u.email })) ∧
    (∀ s m, authMiddleware authorization secret now = .rejected s m →
        meHandler store secret now authorization = .err 401 m) := by
  constructor
  · intro uid u hA hF
    unfold meHandler
    rw [hA]
    simp only [hF]
    rfl
  · intro s m hA
    have h401 : s = 401 := by
      unfold authMiddleware at hA
      cases hE : extractBearer authorization <;> rw [hE] at hA
      · cases hA; rfl
      · rename_i tok
        cases hV : verifyTokenString tok secret now with
        | none =>
            simp only [hV] at hA
            injection hA with hs hm
            exact hs.symm
        | some c =>
            simp only [hV] at hA
            injection hA
    subst h401
    unfold meHandler
    rw [hA]

def demoAuth : Option String :=
  some ("Bearer " ++ encodeToken
    (jwtSign { id := 1, name := "Ada", email := "ada@example.com" } "sec" 100))

theorem me_projection_or_unauthorized_check :
    meHandler demoStore "sec" 0 demoAuth =
      .okUser (some { id := 1, name := "Ada", email := "ada@example.com" }) ∧
    meHandler demoStore "sec" 0 none = .err 401 "Missing token" :=
  ⟨(me_projection_or_unauthorized demoStore "sec" 0 demoAuth).1 1 demoUser
     (by decide) (by decide),
   (me_projection_or_unauthorized demoStore "sec" 0 none).2 401 "Missing token"
     (by decide)⟩

/-- C9: a token the guard accepts whose embedded id matches no stored
user makes GET /me respond 200 with `{user: null}` — neither a 401 nor
an error — since the handler does not check the lookup result. -/
theorem me_null_user_for_deleted_account (store : List User) (secret : String)
    (now : Nat) (authorization : Option String) (uid : Nat)
    (hA : authMiddleware authorization secret now = .verified uid)
    (hF : findById store uid = none) :
    meHandler store secret now authorization = .okUser none := by
  unfold meHandler
  rw [hA]
  simp only [hF]
  rfl

theorem me_null_user_for_deleted_account_check :
    meHandler [] "sec" 0 demoAuth = .okUser none :=
  me_null_user_for_deleted_account [] "sec" 0 demoAuth 1 (by decide) (by decide)

/-- C4 counterexample: on a transport failure the relay does not return
the fallback reply — the catch branch sends a 500 with a distinct error
body. -/
theorem chat_failure_not_fallback :
    chatbotHandler (.failure "connect ECONNREFUSED") =
      .error 500 "Chatbot failed to respond. Check API key or model endpoint." ∧
    chatbotHandler (.failure "connect ECONNREFUSED") ≠ .reply fallbackReply := by
  refine ⟨rfl, ?_⟩
  decide

/-- C4 amended: the fixed fallback reply is returned only for a
successful upstream response whose body lacks a first textual
candidate; a transport failure or non-success status is answered with
the 500 `Chatbot failed to respond...` error body.  Either way the
handler answers the client rather than throwing. -/
theorem chat_relay_outcomes :
    (∀ body, firstCandidateText body = none →
        chatbotHandler (.ok body) = .reply fallbackReply) ∧
    (∀ detail, chatbotHandler (.failure detail) =
        .error 500 "Chatbot failed to respond. Check API key or model endpoint.") := by
  constructor
  · intro body h
    unfold chatbotHandler
    simp only [h]
  · intro detail
    rfl

theorem chat_relay_outcomes_check :
    chatbotHandler (.ok { candidates := some [] }) = .reply fallbackReply ∧
    chatbotHandler (.failure "HTTP 403") =
      .error 500 "Chatbot failed to respond. Check API key or model endpoint." :=
  ⟨chat_relay_outcomes.1 { candidates := some [] } (by decide),
   chat_relay_outcomes.2 "HTTP 403"⟩

/-- C6: contrary to the claim, startup consults only `MONGODB_URI` (via
the connect outcome) and `PORT`; with `JWT_SECRET` absent from the
environment and the database reachable, the server still proceeds to
listen instead of failing fast. -/
theorem startup_ignores_missing_jwt_secret :
    startup { PORT := none, MONGODB_URI := some "mongodb://localhost/finverse",
              JWT_SECRET := none } .success = .listening 4000 ∧
    ({ PORT := none, MONGODB_URI := some "mongodb://localhost/finverse",
       JWT_SECRET := none } : Env).JWT_SECRET = none :=
  ⟨rfl, rfl⟩

/-! ## C8: step equations and the race invariant -/

theorem regStep_start (secret : String) (now : Nat) (freshId : Nat)
    (n e p : String) (store : List User) :
    regStep secret now freshId n e p store .start =
      (.checked (findOne store e).isSome, store) := rfl

theorem regStep_checked_true (secret : String) (now : Nat) (freshId : Nat)
    (n e p : String) (store : List User) :
    regStep secret now freshId n e p store (.checked true) =
      (.done (.err 400 "Email already in use"), store) := rfl

theorem regStep_done (secret : String) (now : Nat) (freshId : Nat)
    (n e p : String) (store : List User) (r : AuthResponse) :
    regStep secret now freshId n e p store (.done r) = (.done r, store) := rfl

theorem regStep_checked_false_fresh (secret : String) (now : Nat)
    (freshId : Nat) (n e p : String) (store : List User)
    (hF : findOne store e = none) :
    regStep secret now freshId n e p store (.checked false) =
      (.done (.ok (jwtSign { id := freshId, name := n, email := e } secret
                     (now + sevenDays))
                  { id := freshId, name := n, email := e }),
       store ++ [{ id := freshId, name := n, email := e,
                   passwordHash := bcryptHash p }]) := by
  simp [regStep, storeCreate, hF]

theorem regStep_checked_false_dup (secret : String) (now : Nat)
    (freshId : Nat) (n e p : String) (store : List User)
    (hF : (findOne store e).isSome = true) :
    regStep secret now freshId n e p store (.checked false) =
      (.done (.err 500 "Server error"), store) := by
  simp [regStep, storeCreate, hF]

/-- Invariant of the two-request system: a finished success implies the
email is in the store, and the two requests never both finished
successfully. -/
def raceInv (e : String) (st : RaceState) : Prop :=
  ((st.r1.isOk = true ∨ st.r2.isOk = true) → (findOne st.store e).isSome = true) ∧
  ¬(st.r1.isOk = true ∧ st.r2.isOk = true)

theorem regStep_preserves (secret : String) (now : Nat) (freshId : Nat)
    (n e p : String) (store : List User) (ph : RegPhase) (other : Bool)
    (hs : (ph.isOk = true ∨ other = true) → (findOne store e).isSome = true)
    (hb : ¬(ph.isOk = true ∧ other = true)) :
    (((regStep secret now freshId n e p store ph).1.isOk = true ∨ other = true) →
        (findOne (regStep secret now freshId n e p store ph).2 e).isSome = true) ∧
    ¬((regStep secret now freshId n e p store ph).1.isOk = true ∧ other = true) := by
  cases ph with
  | start =>
      rw [regStep_start]
      constructor
      · intro h
        apply hs
        rcases h with h | h
        · simp [RegPhase.isOk] at h
        · exact Or.inr h
      · rintro ⟨h, -⟩
        simp [RegPhase.isOk] at h
  | done r =>
      rw [regStep_done]
      exact ⟨hs, hb⟩
  | checked saw =>
      cases saw with
      | true =>
          rw [regStep_checked_true]
          constructor
          · intro h
            apply hs
            rcases h with h | h
            · simp [RegPhase.isOk] at h
            · exact Or.inr h
          · rintro ⟨h, -⟩
            simp [RegPhase.isOk] at h
      | false =>
          rcases hF : findOne store e with _ | u0
          · have hu : findOne
                (store ++ [({ id := freshId, name := n, email := e,
                              passwordHash := bcryptHash p } : User)]) e =
                some { id := freshId, name := n, email := e,
                       passwordHash := bcryptHash p } :=
              findOne_snoc_self store _ hF
            rw [regStep_checked_false_fresh secret now freshId n e p store hF]
            constructor
            · intro _
              rw [hu]
              rfl
            · rintro ⟨-, hother⟩
              have hsome := hs (Or.inr hother)
              rw [hF] at hsome
              simp at hsome
          · have hF2 : (findOne store e).isSome = true := by rw [hF]; rfl
            rw [regStep_checked_false_dup secret now freshId n e p store hF2]
            constructor
            · intro h
              apply hs
              rcases h with h | h
              · simp [RegPhase.isOk] at h
              · exact Or.inr h
            · rintro ⟨h, -⟩
              simp [RegPhase.isOk] at h

theorem raceRun_preserves_inv (secret : String) (now : Nat) (n e p : String)
    (id1 id2 : Nat) :
    ∀ (schedule : List Bool) (st : RaceState), raceInv e st →
      raceInv e (raceRun secret now n e p id1 id2 schedule st) := by
  intro schedule
  induction schedule with
  | nil => intro st h; exact h
  | cons b rest ih =>
      intro st h
      obtain ⟨hs, hb⟩ := h
      cases b with
      | true =>
          apply ih
          have hp := regStep_preserves secret now id1 n e p st.store st.r1
            st.r2.isOk hs hb
          exact ⟨hp.1, hp.2⟩
      | false =>
          apply ih
          have hp := regStep_preserves secret now id2 n e p st.store st.r2
            st.r1.isOk
            (fun h => hs (Or.symm h))
            (fun h => hb ⟨h.2, h.1⟩)
          constructor
          · intro h
            exact hp.1 (Or.symm h)
          · rintro ⟨h1, h2⟩
            exact hp.2 ⟨h2, h1⟩

/-- C8 counterexample: with the fully interleaved schedule (both
`findOne` checks before either `create`), the losing request is
answered with the generic 500 `Server error` (the duplicate `create`
rejection reaches the catch branch), not the 400 `Email already in use`
the claim requires. -/
theorem concurrent_register_race_counterexample :
    (raceRun "sec" 0 "Ada" "ada@example.com" "pw" 1 2 [true, false, true, false]
        { store := [], r1 := .start, r2 := .start }).r2 ≠
      .done (.err 400 "Email already in use") ∧
    (raceRun "sec" 0 "Ada" "ada@example.com" "pw" 1 2 [true, false, true, false]
        { store := [], r1 := .start, r2 := .start }).r2 =
      .done (.err 500 "Server error") := by
  constructor <;> decide

/-- C8 amended: the route performs the uniqueness check and the insert
as two separate storage operations; with the store's atomic
create-if-absent, two concurrent registrations with the same previously
unseen email never both succeed under any interleaving, but in the
fully interleaved schedule the loser fails with the generic 500
`Server error`, not with 400 `Email already in use`. -/
theorem concurrent_register_one_success (secret : String) (now : Nat)
    (n e p : String) (id1 id2 : Nat) (store : List User)
    (h : findOne store e = none) :
    (∀ schedule : List Bool,
        ¬((raceRun secret now n e p id1 id2 schedule
             { store := store, r1 := .start, r2 := .start }).r1.isOk = true ∧
          (raceRun secret now n e p id1 id2 schedule
             { store := store, r1 := .start, r2 := .start }).r2.isOk = true)) ∧
    (raceRun secret now n e p id1 id2 [true, false, true, false]
        { store := store, r1 := .start, r2 := .start }).r1 =
      .done (.ok (jwtSign { id := id1, name := n, email := e } secret
                    (now + sevenDays))
                 { id := id1, name := n, email := e }) ∧
    (raceRun secret now n e p id1 id2 [true, false, true, false]
        { store := store, r1 := .start, r2 := .start }).r2 =
      .done (.err 500 "Server error") := by
  have hInv0 : raceInv e { store := store, r1 := .start, r2 := .start } := by
    constructor
    · intro hcase
      rcases hcase with hc | hc <;> simp [RegPhase.isOk] at hc
    · rintro ⟨hc, -⟩
      simp [RegPhase.isOk] at hc
  have hu : findOne
      (store ++ [({ id := id1, name := n, email := e,
                    passwordHash := bcryptHash p } : User)]) e =
      some { id := id1, name := n, email := e,
             passwordHash := bcryptHash p } :=
    findOne_snoc_self store _ h
  have hdup : (findOne
      (store ++ [({ id := id1, name := n, email := e,
                    passwordHash := bcryptHash p } : User)]) e).isSome = true := by
    rw [hu]; rfl
  refine ⟨?_, ?_⟩
  · intro schedule
    exact (raceRun_preserves_inv secret now n e p id1 id2 schedule _ hInv0).2
  · simp only [raceRun, regStep_start, h, Option.isSome_none,
      regStep_checked_false_fresh secret now id1 n e p store h,
      regStep_checked_false_dup secret now id2 n e p
        (store ++ [{ id := id1, name := n, email := e,
                     passwordHash := bcryptHash p }]) hdup]
    constructor <;> first | rfl | trivial

theorem concurrent_register_one_success_check :
    (¬((raceRun "sec" 0 "Ada" "ada@example.com" "pw" 1 2 [true, true, false, false]
          { store := [], r1 := .start, r2 := .start }).r1.isOk = true ∧
       (raceRun "sec" 0 "Ada" "ada@example.com" "pw" 1 2 [true, true, false, false]
          { store := [], r1 := .start, r2 := .start }).r2.isOk = true)) ∧
    (raceRun "sec" 0 "Ada" "ada@example.com" "pw" 1 2 [true, false, true, false]
        { store := [], r1 := .start, r2 := .start }).r2 =
      .done (.err 500 "Server error") :=
  ⟨(concurrent_register_one_success "sec" 0 "Ada" "ada@example.com" "pw" 1 2 []
      (by decide)).1 [true, true, false, false],
   (concurrent_register_one_success "sec" 0 "Ada" "ada@example.com" "pw" 1 2 []
      (by decide)).2.2⟩
